import Mathlib

/-!
# Verification of the Codex Code Generator CLI (src/main.py)

A shallow embedding of `src/main.py`, a command-line client that templates
user text into chat-completion requests and prints the response.

Modelling decisions:
* The external chat-completion endpoint is a parameter
  `Backend : ChatRequest → Except String String`: `.ok text` is the first
  choice's message content, `.error e` is a raised failure whose `str(e)`
  description is `e`.
* Python floats carry no arithmetic in this program (they are parsed and
  passed through verbatim), so they are modelled as exact rationals `ℚ`.
* Process environment is a record of the four variables the program reads.
* Terminal output: every `print(s)` and every `input(prompt)` prompt write
  is recorded as an `Event.out`; every request sent to the endpoint is
  recorded as an `Event.net`.  Stdin is a list of lines; exhausting it
  models end-of-input (Python `input()` raising `EOFError`).
-/

/-- The process environment as read by `main.py`: the four variables
`OPENAI_API_KEY`, `MODEL_NAME`, `MAX_TOKENS`, `TEMPERATURE`; `none` means the
variable is absent (`os.getenv` returns `None`). -/
structure Env where
  openai_api_key : Option String
  model_name : Option String
  max_tokens : Option String
  temperature : Option String
deriving DecidableEq, Repr

/-- One chat-completion request as assembled by `main.py`: the `model`,
`messages` (exactly one system and one user message), `max_tokens` and
`temperature` keyword arguments of `client.chat.completions.create`. -/
structure ChatRequest where
  model : String
  systemMessage : String
  userMessage : String
  maxTokens : Int
  temperature : ℚ
deriving DecidableEq, Repr

/-- An observable side effect: a write to standard output (from `print` or an
`input` prompt), or one network call carrying a request. -/
inductive Event where
  | out : String → Event
  | net : ChatRequest → Event
deriving DecidableEq, Repr

/-- The external chat-completion endpoint (library `client.chat.completions.create`):
succeeds with the first choice's content or raises a failure with the given
description. -/
def Backend : Type := ChatRequest → Except String String

/-- Modelled from Python's `str.strip()` with no argument: remove leading and
trailing whitespace. -/
def pyStrip (s : String) : String :=
  String.mk
    (((s.toList.dropWhile Char.isWhitespace).reverse.dropWhile
        Char.isWhitespace).reverse)

/-- Modelled from Python's `str.lower()` (the program only lowers ASCII
command tokens). -/
def pyLower (s : String) : String :=
  String.mk (s.toList.map Char.toLower)

/-- Digit run to a number, modelling positional base-10 reading. -/
def digitsToNat (cs : List Char) : Nat :=
  cs.foldl (fun a c => a * 10 + (c.toNat - '0'.toNat)) 0

/-- Modelled from Python's built-in `int(s)` on a string argument (base 10):
strip surrounding whitespace, optional sign, then a nonempty run of decimal
digits; anything else raises `ValueError` (underscore separators are not
modelled; no claim exercises them). -/
def pyIntParse (s : String) : Except String Int :=
  let t := pyStrip s
  let (sign, ds) : Int × List Char :=
    match t.toList with
    | '+' :: r => (1, r)
    | '-' :: r => (-1, r)
    | r => (1, r)
  if ds ≠ [] ∧ ds.all Char.isDigit then
    .ok (sign * (digitsToNat ds : Int))
  else
    .error ("invalid literal for int() with base 10: " ++ s)

/-- Mantissa/exponent split at the first occurrence of a character. -/
def splitFirst (c : Char) : List Char → List Char × Option (List Char)
  | [] => ([], none)
  | x :: r =>
    if x = c then ([], some r)
    else
      let (a, b) := splitFirst c r
      (x :: a, b)

/-- Value of an optionally fractional digit string `ip [. fp]`. -/
def mantissaVal (ip fp : List Char) : ℚ :=
  (digitsToNat ip : ℚ) + (digitsToNat fp : ℚ) / (10 : ℚ) ^ fp.length

/-- Parse the unsigned body of a float literal: `digits [. digits]` or
`. digits`, with an optional `e`-exponent. -/
def parseFloatBody (cs : List Char) : Option ℚ :=
  let (mant, expPart) := splitFirst 'e' cs
  let (ip, fpOpt) := splitFirst '.' mant
  let fp := fpOpt.getD []
  if ip.all Char.isDigit ∧ fp.all Char.isDigit ∧ (ip ≠ [] ∨ fp ≠ []) then
    let base := mantissaVal ip fp
    match expPart with
    | none => some base
    | some ecs =>
      let (esign, eds) : Int × List Char :=
        match ecs with
        | '+' :: r => (1, r)
        | '-' :: r => (-1, r)
        | r => (1, r)
      if eds ≠ [] ∧ eds.all Char.isDigit then
        some (base * (10 : ℚ) ^ (esign * (digitsToNat eds : Int)))
      else none
  else none

/-- Modelled from Python's built-in `float(s)` on a string argument: strip
surrounding whitespace, optional sign, decimal mantissa with optional
exponent; anything else raises `ValueError` (`inf`/`nan` literals are not
modelled; no claim exercises them).  Values are exact rationals, adequate
because the program only passes them through. -/
def pyFloatParse (s : String) : Except String ℚ :=
  let t := pyLower (pyStrip s)
  let (sign, body) : ℚ × List Char :=
    match t.toList with
    | '+' :: r => (1, r)
    | '-' :: r => (-1, r)
    | r => (1, r)
  match parseFloatBody body with
  | some q => .ok (sign * q)
  | none => .error ("could not convert string to float: " ++ s)

/-- The loaded configuration: fields of the `CodexGenerator` instance after
`__init__` (the `client` handle is represented by the `Backend` parameter
threaded through the operations). -/
structure CodexGenerator where
  api_key : String
  model : String
  max_tokens : Int
  temperature : ℚ
deriving DecidableEq, Repr

/-- The `ValueError` message raised by `CodexGenerator.__init__` when the API
key is absent (or empty). -/
def missingKeyMessage : String :=
  "OpenAI API key not found. Please set OPENAI_API_KEY in your .env file.\nGet your API key from: https://platform.openai.com/api-keys"

/-- `int(os.getenv('MAX_TOKENS', 1000))`: the default `1000` is already an
int; a present value is a string handed to `int`. -/
def loadMaxTokens (env : Env) : Except String Int :=
  match env.max_tokens with
  | none => .ok 1000
  | some s => pyIntParse s

/-- `float(os.getenv('TEMPERATURE', 0.7))`: the default `0.7` is already a
float; a present value is a string handed to `float`. -/
def loadTemperature (env : Env) : Except String ℚ :=
  match env.temperature with
  | none => .ok (7 / 10)
  | some s => pyFloatParse s

/-- `CodexGenerator.__init__`: read `OPENAI_API_KEY` (raising `ValueError`
with a remediation message when it is `None` or empty, per `if not
self.api_key`), then load model name, max tokens and temperature.  The
`Except` error is the `ValueError` message. -/
def CodexGenerator.init (env : Env) : Except String CodexGenerator := do
  let api_key := env.openai_api_key.getD ""
  if api_key = "" then
    throw missingKeyMessage
  let model := env.model_name.getD "gpt-4"
  let max_tokens ← loadMaxTokens env
  let temperature ← loadTemperature env
  pure { api_key := api_key, model := model, max_tokens := max_tokens,
         temperature := temperature }

/-- The fixed system message of the generate shape (`generate_code`). -/
def baseSystemMessage : String :=
  "You are an expert programmer assistant. Generate clean, efficient, and well-commented code based on user requests."

/-- The system message built by `generate_code`: Python `if language:` is
false for `None` and for the empty string, so the decoration is appended only
for a non-`None`, nonempty language. -/
def generateSystemMessage (language : Option String) : String :=
  match language with
  | none => baseSystemMessage
  | some l =>
    if l = "" then baseSystemMessage
    else baseSystemMessage ++ " Generate code in " ++ l ++ "."

/-- The request assembled by `generate_code`: model, system + user messages,
configured `max_tokens` and configured `temperature`. -/
def generateRequest (g : CodexGenerator) (prompt : String)
    (language : Option String) : ChatRequest :=
  { model := g.model
    systemMessage := generateSystemMessage language
    userMessage := prompt
    maxTokens := g.max_tokens
    temperature := g.temperature }

/-- `CodexGenerator.generate_code`: send the request; return the first
choice's content, or, on any raised failure `e`, the string
`"Error generating code: " ++ str(e)` (the `try`/`except Exception` block).
The first component is the trace of the one network call made. -/
def generate_code (g : CodexGenerator) (backend : Backend) (prompt : String)
    (language : Option String) : List Event × String :=
  let req := generateRequest g prompt language
  ([Event.net req],
    match backend req with
    | .ok content => content
    | .error e => "Error generating code: " ++ e)

/-- The fixed system message of the explain shape (`explain_code`). -/
def explainerSystemMessage : String :=
  "You are a helpful code explainer. Provide clear, concise explanations of code."

/-- The request assembled by `explain_code`: its own system message, the
templated user message, configured `max_tokens`, and the hard-coded
temperature `0.3` (the configured temperature is not used). -/
def explainRequest (g : CodexGenerator) (code : String) : ChatRequest :=
  { model := g.model
    systemMessage := explainerSystemMessage
    userMessage := "Explain this code:\n\n" ++ code
    maxTokens := g.max_tokens
    temperature := 3 / 10 }

/-- `CodexGenerator.explain_code`: like `generate_code` but with its own
request shape and the error label `"Error explaining code: "`. -/
def explain_code (g : CodexGenerator) (backend : Backend) (code : String) :
    List Event × String :=
  let req := explainRequest g code
  ([Event.net req],
    match backend req with
    | .ok content => content
    | .error e => "Error explaining code: " ++ e)

/-- The user instruction built by `complete_code`: the context suffix is
appended only when `context` is nonempty (Python `if context:`); the Python
default argument is `""`. -/
def completePrompt (snippet context : String) : String :=
  "Complete the following code:\n\n" ++ snippet ++
    (if context = "" then "" else "\n\nContext: " ++ context)

/-- `CodexGenerator.complete_code`: delegates to `generate_code` with the
templated prompt and no language. -/
def complete_code (g : CodexGenerator) (backend : Backend)
    (snippet context : String) : List Event × String :=
  generate_code g backend (completePrompt snippet context) none

/-- The user instruction built by `refactor_code`; the Python default for
`goal` is `"improve readability and efficiency"`. -/
def refactorPrompt (code goal : String) : String :=
  "Refactor the following code to " ++ goal ++ ":\n\n" ++ code

/-- `CodexGenerator.refactor_code`: delegates to `generate_code`. -/
def refactor_code (g : CodexGenerator) (backend : Backend)
    (code goal : String) : List Event × String :=
  generate_code g backend (refactorPrompt code goal) none

/-- The user instruction built by `debug_code`: the error-message suffix is
appended only when `error_message` is nonempty (Python `if error_message:`);
the Python default argument is `""`. -/
def debugPrompt (code error_message : String) : String :=
  "Debug and fix the following code:\n\n" ++ code ++
    (if error_message = "" then "" else "\n\nError message: " ++ error_message)

/-- `CodexGenerator.debug_code`: delegates to `generate_code`. -/
def debug_code (g : CodexGenerator) (backend : Backend)
    (code error_message : String) : List Event × String :=
  generate_code g backend (debugPrompt code error_message) none

/-- The sixty-character `"="*60` separator line. -/
def sep60 : String := String.mk (List.replicate 60 '=')

/-- Command classification of the `if command in [...]` chain of
`interactive_mode`, applied to the already stripped and lowered token. -/
inductive CmdKind where
  | quit | generate | complete | explain | refactor | debug | invalid
deriving DecidableEq, Repr

/-- The `elif` chain on `command` in `interactive_mode`. -/
def commandKind (command : String) : CmdKind :=
  if command = "6" ∨ command = "quit" ∨ command = "exit" then .quit
  else if command = "1" ∨ command = "generate" then .generate
  else if command = "2" ∨ command = "complete" then .complete
  else if command = "3" ∨ command = "explain" then .explain
  else if command = "4" ∨ command = "refactor" then .refactor
  else if command = "5" ∨ command = "debug" then .debug
  else .invalid

/-- The inner `while True` of the multi-line collectors: read lines until one
whose stripped content is exactly `"END"`, returning the collected lines and
the remaining stdin; `none` models `EOFError` before `END` is seen. -/
def readUntilEnd : List String → Option (List String × List String)
  | [] => none
  | l :: rest =>
    if pyStrip l = "END" then some ([], rest)
    else
      match readUntilEnd rest with
      | none => none
      | some (body, rem) => some (l :: body, rem)

theorem readUntilEnd_length {xs body rem : List String}
    (h : readUntilEnd xs = some (body, rem)) : rem.length < xs.length := by
  induction xs generalizing body rem with
  | nil => simp [readUntilEnd] at h
  | cons l rest ih =>
    by_cases hl : pyStrip l = "END"
    · simp [readUntilEnd, hl] at h
      have h3 : rem.length = rest.length := by rw [h.2]
      simp [List.length_cons]
      omega
    · simp only [readUntilEnd, hl, if_false] at h
      match hr : readUntilEnd rest with
      | none => rw [hr] at h; simp at h
      | some (b, r) =>
        rw [hr] at h
        simp at h
        have h3 : rem.length = r.length := by rw [h.2]
        have := ih hr
        simp [List.length_cons]
        omega

/-- How the interactive loop ends: `break` via the quit command, or
`EOFError` raised by `input()` when stdin is exhausted. -/
inductive LoopExit where
  | quit | eof
deriving DecidableEq, Repr

/-- Output written at the top of every loop iteration: the
`"\nWhat would you like to do?"` print and the `input` prompt. -/
def iterHeader : List Event :=
  [Event.out "\nWhat would you like to do?", Event.out "Enter command (1-6): "]

/-- The three-print result banner `print("\n" + "="*60); print(title);
print("="*60)`. -/
def resultHeader (title : String) : List Event :=
  [Event.out ("\n" ++ sep60), Event.out title, Event.out sep60]

/-- The `print` after an unrecognized command. -/
def invalidCommandMessage : String :=
  "Invalid command. Please enter a number between 1-6 or a valid command name."

/-- One iteration of the `while True` loop of `interactive_mode`, given the
command line `raw` and the rest of stdin: either the loop stops (quit command
or `EOFError` inside the iteration) with the iteration's events, or it
continues on the remaining stdin.  The command token is stripped and lowered
and dispatched on the `if`/`elif` chain; multi-line bodies are collected by
`readUntilEnd` and joined with newlines; optional auxiliary fields are
stripped on read. -/
inductive StepOut where
  | stop (evs : List Event) (ex : LoopExit)
  | cont (evs : List Event) (rem : List String)
deriving DecidableEq, Repr

def loopStep (g : CodexGenerator) (backend : Backend) (raw : String)
    (rest : List String) : StepOut :=
  match commandKind (pyLower (pyStrip raw)) with
  | .quit =>
    .stop (iterHeader ++
      [Event.out "\nThank you for using Codex Code Generator!"]) .quit
  | .generate =>
    let hdr := iterHeader ++
      [Event.out "\nDescribe the code you want to generate:", Event.out "> "]
    match rest with
    | [] => .stop hdr .eof
    | p :: rest2 =>
      let hdr2 := hdr ++
        [Event.out "Programming language (optional, press Enter to skip): "]
      match rest2 with
      | [] => .stop hdr2 .eof
      | langLine :: rest3 =>
        let language := pyStrip langLine
        let (nev, result) := generate_code g backend p
          (if language = "" then none else some language)
        .cont (hdr2 ++ resultHeader "Generated Code:" ++ nev ++
          [Event.out result]) rest3
  | .complete =>
    let hdr := iterHeader ++
      [Event.out "\nEnter partial code (type 'END' on a new line when done):"]
    match readUntilEnd rest with
    | none => .stop hdr .eof
    | some (bodyLines, rem) =>
      let hdr2 := hdr ++ [Event.out "Additional context (optional): "]
      match rem with
      | [] => .stop hdr2 .eof
      | ctxLine :: rem2 =>
        let body := String.intercalate "\n" bodyLines
        let context := pyStrip ctxLine
        let (nev, result) := complete_code g backend body context
        .cont (hdr2 ++ resultHeader "Completed Code:" ++ nev ++
          [Event.out result]) rem2
  | .explain =>
    let hdr := iterHeader ++
      [Event.out "\nEnter code to explain (type 'END' on a new line when done):"]
    match readUntilEnd rest with
    | none => .stop hdr .eof
    | some (bodyLines, rem) =>
      let body := String.intercalate "\n" bodyLines
      let (nev, result) := explain_code g backend body
      .cont (hdr ++ resultHeader "Explanation:" ++ nev ++
        [Event.out result]) rem
  | .refactor =>
    let hdr := iterHeader ++
      [Event.out "\nEnter code to refactor (type 'END' on a new line when done):"]
    match readUntilEnd rest with
    | none => .stop hdr .eof
    | some (bodyLines, rem) =>
      let hdr2 := hdr ++ [Event.out "Refactoring goal (optional): "]
      match rem with
      | [] => .stop hdr2 .eof
      | goalLine :: rem2 =>
        let body := String.intercalate "\n" bodyLines
        let goal := pyStrip goalLine
        let (nev, result) := refactor_code g backend body
          (if goal = "" then "improve readability and efficiency" else goal)
        .cont (hdr2 ++ resultHeader "Refactored Code:" ++ nev ++
          [Event.out result]) rem2
  | .debug =>
    let hdr := iterHeader ++
      [Event.out "\nEnter code to debug (type 'END' on a new line when done):"]
    match readUntilEnd rest with
    | none => .stop hdr .eof
    | some (bodyLines, rem) =>
      let hdr2 := hdr ++ [Event.out "Error message (optional): "]
      match rem with
      | [] => .stop hdr2 .eof
      | errLine :: rem2 =>
        let body := String.intercalate "\n" bodyLines
        let err := pyStrip errLine
        let (nev, result) := debug_code g backend body err
        .cont (hdr2 ++ resultHeader "Debug Result:" ++ nev ++
          [Event.out result]) rem2
  | .invalid =>
    .cont (iterHeader ++ [Event.out invalidCommandMessage]) rest

/-- A continuing iteration consumes at least the command line: the remaining
stdin is strictly shorter. -/
theorem loopStep_cont_length {g : CodexGenerator} {backend : Backend}
    {raw : String} {rest rem : List String} {evs : List Event}
    (h : loopStep g backend raw rest = .cont evs rem) :
    rem.length < rest.length + 1 := by
  unfold loopStep at h
  dsimp only at h
  repeat' split at h
  all_goals try (exfalso; exact StepOut.noConfusion h)
  all_goals injection h with h1 h2
  all_goals subst h2
  all_goals try simp only [List.length_cons]
  all_goals try omega
  all_goals
    have hlen := readUntilEnd_length (show readUntilEnd _ = some (_, _) from by assumption)
  all_goals try simp only [List.length_cons] at hlen
  all_goals omega

/-- The `while True` loop of `interactive_mode`: run one iteration per
command line until the loop stops or stdin is exhausted, accumulating the
trace. -/
def loopRun (g : CodexGenerator) (backend : Backend) :
    List String → List Event × LoopExit
  | [] => (iterHeader, .eof)
  | raw :: rest =>
    match h : loopStep g backend raw rest with
    | .stop evs ex => (evs, ex)
    | .cont evs rem =>
      let (tev, ex) := loopRun g backend rem
      (evs ++ tev, ex)
termination_by inputs => inputs.length
decreasing_by
  simp_wf
  have := loopStep_cont_length h
  omega

/-- The fixed menu printed at the top of `interactive_mode`, before the
generator is constructed. -/
def menuBanner : List Event :=
  [Event.out sep60,
   Event.out "OpenAI Codex Code Generator - Interactive Mode",
   Event.out sep60,
   Event.out "\nAvailable commands:",
   Event.out "  1. generate - Generate code from description",
   Event.out "  2. complete - Complete partial code",
   Event.out "  3. explain - Explain code",
   Event.out "  4. refactor - Refactor code",
   Event.out "  5. debug - Debug code",
   Event.out "  6. quit - Exit the program",
   Event.out sep60]

/-- How an entry point finishes: a normal return (process exit status 0), or
an uncaught `EOFError` escaping the loop (nonzero exit). -/
inductive ProcExit where
  | normal | uncaughtEOF
deriving DecidableEq, Repr

/-- Process exit status for each outcome. -/
def exitStatus : ProcExit → Nat
  | .normal => 0
  | .uncaughtEOF => 1

/-- `interactive_mode()`: print the menu, construct the generator (catching
`ValueError`, printing `"\nError: {e}"` and returning), then run the command
loop on stdin. -/
def interactive_mode (env : Env) (backend : Backend) (stdin : List String) :
    List Event × ProcExit :=
  match CodexGenerator.init env with
  | .error e => (menuBanner ++ [Event.out ("\nError: " ++ e)], .normal)
  | .ok g =>
    let (evs, ex) := loopRun g backend stdin
    (menuBanner ++ evs,
      match ex with
      | .quit => .normal
      | .eof => .uncaughtEOF)

/-- `direct_mode(prompt)`: construct the generator and run one generate call,
catching `ValueError` and printing `"\nError: {e}"`. -/
def direct_mode (env : Env) (backend : Backend) (prompt : String) :
    List Event × ProcExit :=
  match CodexGenerator.init env with
  | .error e => ([Event.out ("\nError: " ++ e)], .normal)
  | .ok g =>
    let (nev, result) := generate_code g backend prompt none
    ([Event.out "\nGenerating code...\n"] ++ nev ++ [Event.out result],
      .normal)

/-- `main()`: with command-line arguments (the list after the program name),
join them with single spaces and run direct mode; otherwise interactive
mode. -/
def main_run (env : Env) (backend : Backend) (argv stdin : List String) :
    List Event × ProcExit :=
  if argv.length > 0 then direct_mode env backend (String.intercalate " " argv)
  else interactive_mode env backend stdin

theorem readUntilEnd_subset {xs body rem : List String}
    (h : readUntilEnd xs = some (body, rem)) : ∀ x ∈ rem, x ∈ xs := by
  induction xs generalizing body rem with
  | nil => simp [readUntilEnd] at h
  | cons l rest ih =>
    by_cases hl : pyStrip l = "END"
    · simp [readUntilEnd, hl] at h
      obtain ⟨h1, h2⟩ := h
      subst h2
      intro x hx
      exact List.mem_cons_of_mem _ hx
    · simp only [readUntilEnd, hl, if_false] at h
      match hr : readUntilEnd rest with
      | none => rw [hr] at h; simp at h
      | some (b, r) =>
        rw [hr] at h
        simp at h
        obtain ⟨h1, h2⟩ := h
        subst h2
        intro x hx
        exact List.mem_cons_of_mem _ (ih hr x hx)

theorem commandKind_quit_iff (c : String) :
    commandKind c = .quit ↔ c = "6" ∨ c = "quit" ∨ c = "exit" := by
  unfold commandKind
  split_ifs with h1 h2 h3 h4 h5 h6 <;> simp_all

theorem loopStep_cont_subset {g : CodexGenerator} {backend : Backend}
    {raw : String} {rest rem : List String} {evs : List Event}
    (h : loopStep g backend raw rest = .cont evs rem) :
    ∀ x ∈ rem, x ∈ rest := by
  unfold loopStep at h
  dsimp only at h
  repeat' split at h
  all_goals try (exfalso; exact StepOut.noConfusion h)
  all_goals injection h with h1 h2
  all_goals subst h2
  all_goals try (intro x hx; simp [hx])
  all_goals
    have hsub := readUntilEnd_subset
      (show readUntilEnd _ = some (_, _) from by assumption)
  all_goals intro x hx
  all_goals exact hsub x (by simp [hx])

theorem loopStep_stop_quit {g : CodexGenerator} {backend : Backend}
    {raw : String} {rest : List String} {evs : List Event}
    (h : loopStep g backend raw rest = .stop evs .quit) :
    commandKind (pyLower (pyStrip raw)) = .quit := by
  unfold loopStep at h
  dsimp only at h
  repeat' split at h
  all_goals first
    | assumption
    | exact absurd h (by simp)
    | (exfalso; exact StepOut.noConfusion h)

/-- One-step unfolding of the loop, stated without the dependent matcher. -/
theorem loopRun_cons (g : CodexGenerator) (b : Backend) (raw : String)
    (rest : List String) :
    loopRun g b (raw :: rest) =
      match loopStep g b raw rest with
      | .stop evs ex => (evs, ex)
      | .cont evs rem => (evs ++ (loopRun g b rem).1, (loopRun g b rem).2) := by
  rw [loopRun]
  cases hstep : loopStep g b raw rest <;> simp

/-- The loop `break`s only after reading a line whose stripped, lowered form
is one of the quit tokens. -/
theorem loopRun_quit_token (g : CodexGenerator) (b : Backend) :
    ∀ inputs : List String, (loopRun g b inputs).2 = .quit →
      ∃ l ∈ inputs, commandKind (pyLower (pyStrip l)) = .quit := by
  intro inputs
  induction inputs using loopRun.induct g b with
  | case1 => simp [loopRun]
  | case2 raw rest evs ex hstep =>
    intro hq
    rw [loopRun_cons, hstep] at hq
    simp at hq
    subst hq
    exact ⟨raw, List.mem_cons_self _ _, loopStep_stop_quit hstep⟩
  | case3 raw rest evs rem hstep tev ex hrun ih =>
    intro hq
    rw [loopRun_cons, hstep] at hq
    simp at hq
    obtain ⟨l, hl, hk⟩ := ih hq
    exact ⟨l, List.mem_cons_of_mem _ (loopStep_cont_subset hstep l hl), hk⟩

/-- A sample loaded configuration, as produced from an environment that sets
only the API key (defaults `gpt-4`, `1000`, `0.7`). -/
def gDemo : CodexGenerator :=
  { api_key := "sk-test", model := "gpt-4", max_tokens := 1000,
    temperature := 7 / 10 }

/-- A backend whose every call raises a failure described `"boom"`. -/
def bErr : Backend := fun _ => .error "boom"

/-- An environment with no API key set. -/
def envNoKey : Env :=
  { openai_api_key := none, model_name := none, max_tokens := none,
    temperature := none }

/-- An environment with a key but malformed numeric overrides. -/
def envBadNumbers : Env :=
  { openai_api_key := some "sk-test", model_name := none,
    max_tokens := some "abc", temperature := some "xyz" }

theorem init_missing_key {env : Env} (h : env.openai_api_key = none) :
    CodexGenerator.init env = .error missingKeyMessage := by
  obtain ⟨k, m, mt, t⟩ := env
  cases h
  rfl

/-- C1: every failure raised by the underlying chat-completion call is caught
and returned as an ordinary string: `"Error generating code: "` (resp.
`"Error explaining code: "`) followed by the failure's description.  The
operations are total — no fault propagates. -/
theorem failures_returned_as_strings (g : CodexGenerator) (backend : Backend)
    (prompt code : String) (language : Option String) (e : String)
    (hg : backend (generateRequest g prompt language) = .error e)
    (hx : backend (explainRequest g code) = .error e) :
    (generate_code g backend prompt language).2 = "Error generating code: " ++ e ∧
    (explain_code g backend code).2 = "Error explaining code: " ++ e := by
  constructor
  · simp [generate_code, hg]
  · simp [explain_code, hx]

/-- C1 witness: a remote-call failure described `"timeout"` yields exactly
`"Error generating code: timeout"` in the generate shape. -/
theorem failures_returned_as_strings_witness :
    (fun _ => Except.error "timeout" : Backend)
        (generateRequest gDemo "reverse a list" none) = .error "timeout" ∧
    (generate_code gDemo (fun _ => .error "timeout") "reverse a list" none).2 =
      "Error generating code: timeout" ∧
    (explain_code gDemo (fun _ => .error "timeout") "print(1)").2 =
      "Error explaining code: timeout" :=
  ⟨rfl,
    (failures_returned_as_strings gDemo (fun _ => .error "timeout")
      "reverse a list" "print(1)" none "timeout" rfl rfl).1,
    (failures_returned_as_strings gDemo (fun _ => .error "timeout")
      "reverse a list" "print(1)" none "timeout" rfl rfl).2⟩

/-- C2 counterexample: the claim quantifies over every non-`None` language,
but at the concrete non-`None` language `""` the code's `if language:` check
is false, so the system instruction is the bare base string — not the base
string followed by `" Generate code in ."` as the claim states. -/
theorem generate_empty_language_counterexample :
    (generateRequest gDemo "reverse a list" (some "")).systemMessage =
      baseSystemMessage ∧
    (generateRequest gDemo "reverse a list" (some "")).systemMessage ≠
      baseSystemMessage ++ " Generate code in " ++ "" ++ "." := by
  constructor
  · rfl
  · decide

/-- C2 (amended): for every prompt `p` and every non-`None`, **nonempty**
language `L`, the generate shape sends system instruction
`base ++ " Generate code in " ++ L ++ "."` and user instruction `p`
verbatim; with no language (or an empty one) the system instruction is the
base string alone. -/
theorem generate_message_construction (g : CodexGenerator) (backend : Backend)
    (p L : String) (hL : L ≠ "") :
    (generate_code g backend p (some L)).1 =
      [Event.net (generateRequest g p (some L))] ∧
    (generateRequest g p (some L)).systemMessage =
      baseSystemMessage ++ " Generate code in " ++ L ++ "." ∧
    (generateRequest g p (some L)).userMessage = p ∧
    (generateRequest g p none).systemMessage = baseSystemMessage ∧
    (generateRequest g p none).userMessage = p ∧
    (generateRequest g p (some "")).systemMessage = baseSystemMessage := by
  refine ⟨rfl, ?_, rfl, rfl, rfl, rfl⟩
  simp [generateRequest, generateSystemMessage, hL, String.append_assoc]

/-- C2 witness: the amended statement at `p = "reverse a list"`,
`L = "Python"`. -/
theorem generate_message_construction_witness :
    ("Python" ≠ "") ∧
    (generateRequest gDemo "reverse a list" (some "Python")).systemMessage =
      baseSystemMessage ++ " Generate code in " ++ "Python" ++ "." ∧
    (generateRequest gDemo "reverse a list" (some "Python")).userMessage =
      "reverse a list" :=
  ⟨by decide,
    (generate_message_construction gDemo bErr "reverse a list" "Python"
      (by decide)).2.1,
    (generate_message_construction gDemo bErr "reverse a list" "Python"
      (by decide)).2.2.1⟩

/-- C3: the debug shape's user instruction is
`"Debug and fix the following code:\n\n{c}"` when the error message is the
empty string (also the Python default), and the `"\n\nError message: {e}"`
suffix is appended exactly when `e` is nonempty. -/
theorem debug_prompt_template (g : CodexGenerator) (backend : Backend)
    (c e : String) (he : e ≠ "") :
    (generateRequest g (debugPrompt c "") none).userMessage =
      "Debug and fix the following code:\n\n" ++ c ∧
    (generateRequest g (debugPrompt c e) none).userMessage =
      "Debug and fix the following code:\n\n" ++ c ++
        "\n\nError message: " ++ e ∧
    (debug_code g backend c e).1 =
      [Event.net (generateRequest g (debugPrompt c e) none)] := by
  refine ⟨by simp [generateRequest, debugPrompt], ?_, rfl⟩
  simp [generateRequest, debugPrompt, he, String.append_assoc]

/-- C3 witness: `debug("print(x)", "")` has no error-message suffix;
`debug("print(x)", "NameError")` appends it. -/
theorem debug_prompt_template_witness :
    ("NameError" ≠ "") ∧
    (generateRequest gDemo (debugPrompt "print(x)" "") none).userMessage =
      "Debug and fix the following code:\n\nprint(x)" ∧
    (generateRequest gDemo (debugPrompt "print(x)" "NameError") none).userMessage =
      "Debug and fix the following code:\n\nprint(x)" ++
        "\n\nError message: " ++ "NameError" :=
  ⟨by decide,
    (debug_prompt_template gDemo bErr "print(x)" "NameError" (by decide)).1,
    (debug_prompt_template gDemo bErr "print(x)" "NameError" (by decide)).2.1⟩

/-- C4: the complete shape's user instruction appends
`"\n\nContext: {x}"` exactly when the context is nonempty, and the
documented concrete instance holds verbatim. -/
theorem complete_prompt_template (g : CodexGenerator) (backend : Backend)
    (c x : String) (hx : x ≠ "") :
    (generateRequest g (completePrompt c x) none).userMessage =
      "Complete the following code:\n\n" ++ c ++ "\n\nContext: " ++ x ∧
    (generateRequest g (completePrompt c "") none).userMessage =
      "Complete the following code:\n\n" ++ c ∧
    completePrompt "def add(a, b):\n    " "should return sum" =
      "Complete the following code:\n\ndef add(a, b):\n    \n\nContext: should return sum" ∧
    (complete_code g backend c x).1 =
      [Event.net (generateRequest g (completePrompt c x) none)] := by
    refine ⟨?_, by simp [generateRequest, completePrompt], by decide, rfl⟩
    simp [generateRequest, completePrompt, hx, String.append_assoc]

/-- C4 witness: the documented concrete instance. -/
theorem complete_prompt_template_witness :
    ("should return sum" ≠ "") ∧
    (generateRequest gDemo
        (completePrompt "def add(a, b):\n    " "should return sum")
        none).userMessage =
      "Complete the following code:\n\ndef add(a, b):\n    " ++
        "\n\nContext: " ++ "should return sum" :=
  ⟨by decide,
    (complete_prompt_template gDemo bErr "def add(a, b):\n    "
      "should return sum" (by decide)).1⟩

/-- C5: with no API key in the environment, construction fails with the
`ValueError` whose message carries the remediation URL, and both entry
points print the error and return normally, with no network event anywhere
in their traces (hence before any prompt is built). -/
theorem missing_key_fails_fast (env : Env) (backend : Backend)
    (stdin : List String) (prompt : String)
    (h : env.openai_api_key = none) :
    CodexGenerator.init env = .error missingKeyMessage ∧
    (∃ pre post : String,
      missingKeyMessage = pre ++ "https://platform.openai.com/api-keys" ++ post) ∧
    interactive_mode env backend stdin =
      (menuBanner ++ [Event.out ("\nError: " ++ missingKeyMessage)], .normal) ∧
    direct_mode env backend prompt =
      ([Event.out ("\nError: " ++ missingKeyMessage)], .normal) ∧
    (∀ ev ∈ (interactive_mode env backend stdin).1, ∀ r, ev ≠ Event.net r) ∧
    (∀ ev ∈ (direct_mode env backend prompt).1, ∀ r, ev ≠ Event.net r) := by
  have hinit := init_missing_key h
  refine ⟨hinit,
    ⟨"OpenAI API key not found. Please set OPENAI_API_KEY in your .env file.\nGet your API key from: ",
      "", by decide⟩, ?_, ?_, ?_, ?_⟩
  · simp [interactive_mode, hinit]
  · simp [direct_mode, hinit]
  · intro ev hev r
    rintro rfl
    simp [interactive_mode, hinit, menuBanner] at hev
  · intro ev hev r
    rintro rfl
    simp [direct_mode, hinit] at hev

/-- C5 witness: the concrete keyless environment. -/
theorem missing_key_fails_fast_witness :
    envNoKey.openai_api_key = none ∧
    CodexGenerator.init envNoKey = .error missingKeyMessage ∧
    direct_mode envNoKey bErr "make a website" =
      ([Event.out ("\nError: " ++ missingKeyMessage)], .normal) :=
  ⟨rfl, (missing_key_fails_fast envNoKey bErr [] "make a website" rfl).1,
    (missing_key_fails_fast envNoKey bErr [] "make a website" rfl).2.2.2.1⟩

/-- C6 counterexample: with `MAX_TOKENS="abc"` (and `TEMPERATURE="xyz"`) the
loader does **not** silently accept the malformed override — `int("abc")`
raises `ValueError`, so construction fails with a parse error, contradicting
the claim that no parse error is raised. -/
theorem malformed_config_counterexample :
    CodexGenerator.init envBadNumbers =
      .error "invalid literal for int() with base 10: abc" := by rfl

/-- C6 (amended): configuration loading **fails fast** on malformed numeric
overrides: when the API key is present and the `int`/`float` conversion of
`MAX_TOKENS` (resp. `TEMPERATURE`) raises `ValueError` with message `m`,
construction raises that same `ValueError`, which the entry points catch and
report like any other configuration error; downstream behavior is never
reached. -/
theorem malformed_config_fails_fast (env : Env) (backend : Backend)
    (k m prompt : String) (hk : env.openai_api_key = some k) (hne : k ≠ "") :
    (loadMaxTokens env = .error m → CodexGenerator.init env = .error m) ∧
    (∀ n : Int, loadMaxTokens env = .ok n → loadTemperature env = .error m →
      CodexGenerator.init env = .error m) ∧
    (CodexGenerator.init env = .error m →
      direct_mode env backend prompt =
        ([Event.out ("\nError: " ++ m)], .normal)) := by
  refine ⟨?_, ?_, ?_⟩
  · intro hmt
    unfold CodexGenerator.init
    simp only [hk, Option.getD_some, hne, if_neg, ite_false, hmt]
    rfl
  · intro n hmt ht
    unfold CodexGenerator.init
    simp only [hk, Option.getD_some, hne, if_neg, ite_false, hmt, ht]
    rfl
  · intro hinit
    simp [direct_mode, hinit]

/-- C6 witness: the amended statement at the concrete environment with
`MAX_TOKENS="abc"`. -/
theorem malformed_config_fails_fast_witness :
    loadMaxTokens envBadNumbers =
      .error "invalid literal for int() with base 10: abc" ∧
    CodexGenerator.init envBadNumbers =
      .error "invalid literal for int() with base 10: abc" ∧
    direct_mode envBadNumbers bErr "p" =
      ([Event.out ("\nError: " ++ "invalid literal for int() with base 10: abc")],
        .normal) := by
  refine ⟨rfl, ?_, ?_⟩
  · exact (malformed_config_fails_fast envBadNumbers bErr "sk-test"
      "invalid literal for int() with base 10: abc" "p" rfl (by decide)).1 rfl
  · exact (malformed_config_fails_fast envBadNumbers bErr "sk-test"
      "invalid literal for int() with base 10: abc" "p" rfl (by decide)).2.2
      ((malformed_config_fails_fast envBadNumbers bErr "sk-test"
        "invalid literal for int() with base 10: abc" "p" rfl (by decide)).1 rfl)

/-- C8: every `ValueError`-class configuration failure (missing key or a
numeric parse failure) is caught by whichever entry point runs; the error is
printed and the process exits normally with status 0 — never via an uncaught
fault. -/
theorem valueerror_caught_exit_zero (env : Env) (backend : Backend)
    (argv stdin : List String) (e : String)
    (h : CodexGenerator.init env = .error e) :
    Event.out ("\nError: " ++ e) ∈ (main_run env backend argv stdin).1 ∧
    (main_run env backend argv stdin).2 = ProcExit.normal ∧
    exitStatus (main_run env backend argv stdin).2 = 0 := by
  unfold main_run
  by_cases ha : argv.length > 0 <;>
    simp [ha, direct_mode, interactive_mode, h, exitStatus, menuBanner]

/-- C8 witness: both entry modes at the concrete keyless environment. -/
theorem valueerror_caught_exit_zero_witness :
    CodexGenerator.init envNoKey = .error missingKeyMessage ∧
    exitStatus (main_run envNoKey bErr ["make", "a", "website"] []).2 = 0 ∧
    exitStatus (main_run envNoKey bErr [] ["1"]).2 = 0 :=
  ⟨init_missing_key rfl,
    (valueerror_caught_exit_zero envNoKey bErr ["make", "a", "website"] []
      missingKeyMessage (init_missing_key rfl)).2.2,
    (valueerror_caught_exit_zero envNoKey bErr [] ["1"]
      missingKeyMessage (init_missing_key rfl)).2.2⟩

/-- C9 (implicit): the explain shape always sends the hard-coded temperature
`0.3`, while generate — and complete/refactor/debug, which delegate to it —
send the configured temperature; the two requests differ whenever the
configuration differs from `0.3`. -/
theorem explain_temperature_hardcoded (g : CodexGenerator) (backend : Backend)
    (code p snippet ctx goal err : String) (lang : Option String)
    (hdiff : g.temperature ≠ 3 / 10) :
    (explainRequest g code).temperature = 3 / 10 ∧
    (explain_code g backend code).1 = [Event.net (explainRequest g code)] ∧
    (generateRequest g p lang).temperature = g.temperature ∧
    (generateRequest g (completePrompt snippet ctx) none).temperature =
      g.temperature ∧
    (generateRequest g (refactorPrompt code goal) none).temperature =
      g.temperature ∧
    (generateRequest g (debugPrompt code err) none).temperature =
      g.temperature ∧
    (explainRequest g code).temperature ≠ (generateRequest g p lang).temperature := by
  refine ⟨rfl, rfl, rfl, rfl, rfl, rfl, ?_⟩
  exact fun hcontra => hdiff hcontra.symm

/-- C9 witness: with the default configured temperature `0.7`, the explain
request and the generate request carry different temperatures. -/
theorem explain_temperature_hardcoded_witness :
    gDemo.temperature ≠ 3 / 10 ∧
    (explainRequest gDemo "print(1)").temperature ≠
      (generateRequest gDemo "reverse a list" none).temperature :=
  ⟨by norm_num [gDemo],
    (explain_temperature_hardcoded gDemo bErr "print(1)" "reverse a list"
      "s" "c" "g" "e" none (by norm_num [gDemo])).2.2.2.2.2.2⟩

/-- C7: the command tokens `"1"`, `"generate"` and `"GENERATE"` (with
surrounding whitespace trimmed and case folded) all dispatch to the same
generate branch — the loop behaves identically from them; an unrecognized
token prints the invalid-command message and leaves the loop running on the
remaining input; and the loop `break`s only after reading a line whose
stripped, lowered form is `"6"`, `"quit"` or `"exit"` — otherwise it runs to
end-of-input. -/
theorem interactive_dispatch_and_termination :
    (∀ (g : CodexGenerator) (b : Backend) (rest : List String),
      loopRun g b ("1" :: rest) = loopRun g b ("generate" :: rest) ∧
      loopRun g b ("GENERATE" :: rest) = loopRun g b ("generate" :: rest) ∧
      loopRun g b ("  GeNeRaTe  " :: rest) = loopRun g b ("generate" :: rest) ∧
      commandKind (pyLower (pyStrip "1")) = CmdKind.generate ∧
      commandKind (pyLower (pyStrip "GENERATE")) = CmdKind.generate) ∧
    (∀ (g : CodexGenerator) (b : Backend) (raw : String) (rest : List String),
      commandKind (pyLower (pyStrip raw)) = CmdKind.invalid →
      loopRun g b (raw :: rest) =
        (iterHeader ++ [Event.out invalidCommandMessage] ++
          (loopRun g b rest).1, (loopRun g b rest).2)) ∧
    (∀ (g : CodexGenerator) (b : Backend) (inputs : List String),
      (loopRun g b inputs).2 = LoopExit.quit →
      ∃ l ∈ inputs, pyLower (pyStrip l) = "6" ∨ pyLower (pyStrip l) = "quit" ∨
        pyLower (pyStrip l) = "exit") := by
  refine ⟨?_, ?_, ?_⟩
  · intro g b rest
    refine ⟨?_, ?_, ?_, by decide, by decide⟩ <;>
      (rw [loopRun_cons, loopRun_cons]; rfl)
  · intro g b raw rest h
    have hs : loopStep g b raw rest =
        .cont (iterHeader ++ [Event.out invalidCommandMessage]) rest := by
      unfold loopStep
      rw [h]
    rw [loopRun_cons, hs]
  · intro g b inputs hq
    obtain ⟨l, hl, hk⟩ := loopRun_quit_token g b inputs hq
    exact ⟨l, hl, (commandKind_quit_iff _).mp hk⟩

/-- C7 witness: a concrete unrecognized token re-prompts, and a concrete run
quitting via `"quit"`. -/
theorem interactive_dispatch_and_termination_witness :
    loopRun gDemo bErr ("GENERATE" :: ["p", "", "quit"]) =
      loopRun gDemo bErr ("generate" :: ["p", "", "quit"]) ∧
    commandKind (pyLower (pyStrip "xyz")) = CmdKind.invalid ∧
    loopRun gDemo bErr ("xyz" :: ["quit"]) =
      (iterHeader ++ [Event.out invalidCommandMessage] ++
        (loopRun gDemo bErr ["quit"]).1, (loopRun gDemo bErr ["quit"]).2) ∧
    (loopRun gDemo bErr ["quit"]).2 = LoopExit.quit ∧
    (∃ l ∈ ["quit"], pyLower (pyStrip l) = "6" ∨ pyLower (pyStrip l) = "quit" ∨
      pyLower (pyStrip l) = "exit") := by
  have hq : (loopRun gDemo bErr ["quit"]).2 = LoopExit.quit := by
    rw [loopRun_cons]; rfl
  exact ⟨(interactive_dispatch_and_termination.1 gDemo bErr
      ["p", "", "quit"]).2.1,
    by decide,
    interactive_dispatch_and_termination.2.1 gDemo bErr "xyz" ["quit"]
      (by decide),
    hq,
    interactive_dispatch_and_termination.2.2 gDemo bErr ["quit"] hq⟩

/-- C10 (implicit): in interactive mode every optional auxiliary field is
stripped before use, and a field that is empty after stripping is treated as
absent: the language decoration is dropped (`None` is passed), the context
and error-message suffixes are omitted, and the refactoring goal falls back
to `"improve readability and efficiency"`. -/
theorem interactive_optional_fields_trimmed (g : CodexGenerator) (b : Backend)
    (rest : List String) (p lang ctx goalLine err : String) :
    (Event.net (generateRequest g p
        (if pyStrip lang = "" then none else some (pyStrip lang))) ∈
      (loopRun g b ("1" :: p :: lang :: rest)).1) ∧
    (Event.net (generateRequest g (completePrompt "" (pyStrip ctx)) none) ∈
      (loopRun g b ("2" :: "END" :: ctx :: rest)).1) ∧
    (Event.net (generateRequest g (refactorPrompt ""
        (if pyStrip goalLine = "" then "improve readability and efficiency"
          else pyStrip goalLine)) none) ∈
      (loopRun g b ("4" :: "END" :: goalLine :: rest)).1) ∧
    (Event.net (generateRequest g (debugPrompt "" (pyStrip err)) none) ∈
      (loopRun g b ("5" :: "END" :: err :: rest)).1) ∧
    (pyStrip ctx = "" →
      completePrompt "" (pyStrip ctx) = "Complete the following code:\n\n") ∧
    (pyStrip err = "" →
      debugPrompt "" (pyStrip err) = "Debug and fix the following code:\n\n") := by
  refine ⟨?_, ?_, ?_, ?_, ?_, ?_⟩
  · rw [loopRun_cons]
    have hs : loopStep g b "1" (p :: lang :: rest) =
        .cont (iterHeader ++
          [Event.out "\nDescribe the code you want to generate:",
            Event.out "> ",
            Event.out "Programming language (optional, press Enter to skip): "] ++
          resultHeader "Generated Code:" ++
          (generate_code g b p
            (if pyStrip lang = "" then none else some (pyStrip lang))).1 ++
          [Event.out (generate_code g b p
            (if pyStrip lang = "" then none else some (pyStrip lang))).2]) rest := rfl
    rw [hs]
    simp [generate_code]
  · rw [loopRun_cons]
    have hs : loopStep g b "2" ("END" :: ctx :: rest) =
        .cont (iterHeader ++
          [Event.out "\nEnter partial code (type 'END' on a new line when done):",
            Event.out "Additional context (optional): "] ++
          resultHeader "Completed Code:" ++
          (complete_code g b "" (pyStrip ctx)).1 ++
          [Event.out (complete_code g b "" (pyStrip ctx)).2]) rest := rfl
    rw [hs]
    simp [complete_code, generate_code]
  · rw [loopRun_cons]
    have hs : loopStep g b "4" ("END" :: goalLine :: rest) =
        .cont (iterHeader ++
          [Event.out "\nEnter code to refactor (type 'END' on a new line when done):",
            Event.out "Refactoring goal (optional): "] ++
          resultHeader "Refactored Code:" ++
          (refactor_code g b ""
            (if pyStrip goalLine = "" then "improve readability and efficiency"
              else pyStrip goalLine)).1 ++
          [Event.out (refactor_code g b ""
            (if pyStrip goalLine = "" then "improve readability and efficiency"
              else pyStrip goalLine)).2]) rest := rfl
    rw [hs]
    simp [refactor_code, generate_code]
  · rw [loopRun_cons]
    have hs : loopStep g b "5" ("END" :: err :: rest) =
        .cont (iterHeader ++
          [Event.out "\nEnter code to debug (type 'END' on a new line when done):",
            Event.out "Error message (optional): "] ++
          resultHeader "Debug Result:" ++
          (debug_code g b "" (pyStrip err)).1 ++
          [Event.out (debug_code g b "" (pyStrip err)).2]) rest := rfl
    rw [hs]
    simp [debug_code, generate_code]
  · intro hc
    simp [completePrompt, hc]
  · intro hc
    simp [debugPrompt, hc]

/-- C10 witness: concrete whitespace-only auxiliary entries are treated as
absent (language `None`, omitted suffixes, default goal); a nonempty entry
is used stripped. -/
theorem interactive_optional_fields_trimmed_witness :
    (pyStrip "   " = "") ∧
    (Event.net (generateRequest gDemo "reverse a list" none) ∈
      (loopRun gDemo bErr ["1", "reverse a list", "   "]).1) ∧
    completePrompt "" (pyStrip "   ") = "Complete the following code:\n\n" ∧
    (Event.net (generateRequest gDemo
        (refactorPrompt "" "improve readability and efficiency") none) ∈
      (loopRun gDemo bErr ["4", "END", "   "]).1) := by
  have h := interactive_optional_fields_trimmed gDemo bErr []
    "reverse a list" "   " "   " "   " "   "
  refine ⟨by decide, ?_, h.2.2.2.2.1 (by decide), ?_⟩
  · have h1 := h.1
    simp only [show pyStrip "   " = "" from by decide, if_pos rfl] at h1
    exact h1
  · have h4 := h.2.2.1
    simp only [show pyStrip "   " = "" from by decide, if_pos rfl] at h4
    exact h4
